import Mathlib

/-!
# irsa-mutation-webhook: the mutation decision engine

A shallow embedding of `internal/mutator/mutator.go` and `pkg/config/config.go`.

* Go maps (`pod.Labels`, `sa.Annotations`) are association lists; the order of the
  list stands for the order in which a `range` loop happens to visit the map.
* Go byte slices that hold JSON text are `String`s; a nil slice is `none`.
* A Go `error` is represented by the text that `%v` prints for it.
* The two collaborators of `mutate` that live outside the repository are
  parameters: `json.Unmarshal` into a `corev1.Pod`, and the cluster client's
  `ServiceAccounts(ns).Get` call, which may fail and may also never return.
-/

namespace Webhook

/-! ## Data model -/

/-- The `resource.Quantity` values of the program, represented by their canonical
text (for every literal of the program the canonical text is the literal). -/
structure Quantity where
  text : String
deriving DecidableEq, Repr

/-- The `resource.MustParse` function on well-formed canonical text, which covers every
literal of the program; the stop of the process on malformed text is outside the model. -/
def MustParse (s : String) : Quantity := ⟨s⟩

/-- The `ResourceRequests` / `ResourceLimits` member of `config.Config`. -/
structure ResourcePair where
  CPU : Quantity
  Memory : Quantity
deriving DecidableEq, Repr

/-- The `config.Config` struct. -/
structure Config where
  VirtioFSImage : String
  ResourceRequests : ResourcePair
  ResourceLimits : ResourcePair
deriving DecidableEq, Repr

/-- The `PodSpec` fields read by the program. -/
structure PodSpec where
  ServiceAccountName : String
deriving DecidableEq, Repr

/-- The `corev1.Pod` fields read by the program. -/
structure Pod where
  Namespace : String
  Labels : List (String × String)
  Spec : PodSpec
deriving DecidableEq, Repr

/-- The `corev1.ServiceAccount` fields read by the program. -/
structure ServiceAccount where
  Annotations : List (String × String)
deriving DecidableEq, Repr

/-- The keys of a Go map, in iteration order. -/
def keys (m : List (String × String)) : List String := m.map Prod.fst

/-! ## Eligibility classifier -/

/-- The `strings.HasPrefix` function. -/
def HasPrefix (s pre : String) : Bool := pre.data.isPrefixOf s.data

/-- The `isKubeVirtPod` function: an exact-key lookup, then a scan of the keys with early exit. -/
def isKubeVirtPod (pod : Pod) : Bool :=
  let hasLabel := (pod.Labels.lookup "kubevirt.io").isSome
  if hasLabel then
    true
  else
    pod.Labels.any (fun kv => HasPrefix kv.1 "kubevirt.io" || HasPrefix kv.1 "vm.kubevirt.io")

/-! ## The sidecar container and its JSON encoding -/

/-- The `corev1.VolumeMount` fields set by the program. -/
structure VolumeMount where
  Name : String
  MountPath : String
deriving DecidableEq, Repr

/-- The `corev1.Capabilities` fields set by the program. -/
structure Capabilities where
  Drop : List String
deriving DecidableEq, Repr

/-- The `corev1.SecurityContext` fields set by the program; `none` is a nil pointer. -/
structure SecurityContext where
  RunAsUser : Option Int
  RunAsGroup : Option Int
  RunAsNonRoot : Option Bool
  AllowPrivilegeEscalation : Option Bool
  Capabilities : Option Capabilities
deriving DecidableEq, Repr

/-- The `corev1.ResourceRequirements` fields set by the program; a `ResourceList` is a Go map. -/
structure ResourceRequirements where
  Requests : List (String × Quantity)
  Limits : List (String × Quantity)
deriving DecidableEq, Repr

/-- The `corev1.Container` fields set by the program; every other field keeps its zero value. -/
structure Container where
  Name : String
  Image : String
  ImagePullPolicy : String
  Command : List String
  Args : List String
  Resources : ResourceRequirements
  VolumeMounts : List VolumeMount
  SecurityContext : Option SecurityContext
deriving DecidableEq, Repr

/-- One element of the `[]map[string]interface{}` patch: the keys `op`, `path` and `value`. -/
structure PatchOperation where
  op : String
  path : String
  value : Container
deriving DecidableEq, Repr

/-- The lower-case hexadecimal digit of a number below sixteen. -/
def hexDigit (n : Nat) : Char :=
  if n < 10 then Char.ofNat (48 + n) else Char.ofNat (87 + n)

/-- How `encoding/json` (with HTML escaping, its default) writes one character of a string. -/
def escapeChar (c : Char) : List Char :=
  let b := c.toNat
  let bs := Char.ofNat 92
  if b = 34 ∨ b = 92 then [bs, c]
  else if b = 8 then [bs, 'b']
  else if b = 12 then [bs, 'f']
  else if b = 10 then [bs, 'n']
  else if b = 13 then [bs, 'r']
  else if b = 9 then [bs, 't']
  else if b < 32 ∨ b = 60 ∨ b = 62 ∨ b = 38 then [bs, 'u', '0', '0', hexDigit (b / 16), hexDigit (b % 16)]
  else if b = 8232 then [bs, 'u', '2', '0', '2', '8']
  else if b = 8233 then [bs, 'u', '2', '0', '2', '9']
  else [c]

/-- The escaped body of a JSON string. -/
def escapeChars : List Char → List Char
  | [] => []
  | c :: cs => escapeChar c ++ escapeChars cs

/-- A JSON string literal. -/
def jsonString (s : String) : String :=
  String.mk (Char.ofNat 34 :: (escapeChars s.data ++ [Char.ofNat 34]))

/-- A JSON array from already encoded elements. -/
def jsonArray (elems : List String) : String :=
  "[" ++ ",".intercalate elems ++ "]"

/-- A JSON object from already encoded members. -/
def jsonObject (members : List String) : String :=
  "\x7b" ++ ",".intercalate members ++ "\x7d"

/-- One member of a JSON object. -/
def member (name value : String) : List String :=
  [jsonString name ++ ":" ++ value]

/-- A member with `omitempty`: left out when the Go value is empty. -/
def omitempty (empty : Bool) (name value : String) : List String :=
  if empty then [] else member name value

/-- Go's `<` on strings, on the characters (for UTF-8 text the byte order is the order of
the code points). -/
def stringLess : List Char → List Char → Bool
  | _, [] => false
  | [], _ :: _ => true
  | a :: as, b :: bs =>
    if a.toNat < b.toNat then true
    else if b.toNat < a.toNat then false
    else stringLess as bs

/-- Insertion of a map entry into a list sorted by key. -/
def insertByKey (e : String × Quantity) : List (String × Quantity) → List (String × Quantity)
  | [] => [e]
  | x :: xs => if stringLess e.1.data x.1.data then e :: x :: xs else x :: insertByKey e xs

/-- The entries of a Go map in the order `encoding/json` writes them: sorted by key. -/
def sortByKey : List (String × Quantity) → List (String × Quantity)
  | [] => []
  | x :: xs => insertByKey x (sortByKey xs)

/-- JSON of a `corev1.ResourceList`; a quantity is written as its canonical text in quotes. -/
def marshalResourceList (l : List (String × Quantity)) : String :=
  jsonObject ((sortByKey l).map (fun e => jsonString e.1 ++ ":" ++ jsonString e.2.text))

/-- JSON of a `corev1.ResourceRequirements`: `limits`, then `requests`. -/
def marshalResources (r : ResourceRequirements) : String :=
  jsonObject (
    omitempty r.Limits.isEmpty "limits" (marshalResourceList r.Limits) ++
    omitempty r.Requests.isEmpty "requests" (marshalResourceList r.Requests))

/-- JSON of a `corev1.VolumeMount`: `name` and `mountPath` are always written. -/
def marshalVolumeMount (v : VolumeMount) : String :=
  jsonObject (member "name" (jsonString v.Name) ++ member "mountPath" (jsonString v.MountPath))

/-- JSON of a `corev1.Capabilities`. -/
def marshalCapabilities (c : Capabilities) : String :=
  jsonObject (omitempty c.Drop.isEmpty "drop" (jsonArray (c.Drop.map jsonString)))

/-- JSON of an optional value: a nil pointer is left out by `omitempty`. -/
def omitnil {α : Type} (v : Option α) (name : String) (enc : α → String) : List String :=
  match v with
  | none => []
  | some a => member name (enc a)

/-- JSON of a Go boolean. -/
def jsonBool (b : Bool) : String := if b then "true" else "false"

/-- JSON of a `corev1.SecurityContext`, members in the order of the struct's fields. -/
def marshalSecurityContext (s : SecurityContext) : String :=
  jsonObject (
    omitnil s.Capabilities "capabilities" marshalCapabilities ++
    omitnil s.RunAsUser "runAsUser" toString ++
    omitnil s.RunAsGroup "runAsGroup" toString ++
    omitnil s.RunAsNonRoot "runAsNonRoot" jsonBool ++
    omitnil s.AllowPrivilegeEscalation "allowPrivilegeEscalation" jsonBool)

/-- JSON of a `corev1.Container`, members in the order of the struct's fields. -/
def marshalContainer (c : Container) : String :=
  jsonObject (
    member "name" (jsonString c.Name) ++
    omitempty (c.Image == "") "image" (jsonString c.Image) ++
    omitempty c.Command.isEmpty "command" (jsonArray (c.Command.map jsonString)) ++
    omitempty c.Args.isEmpty "args" (jsonArray (c.Args.map jsonString)) ++
    member "resources" (marshalResources c.Resources) ++
    omitempty c.VolumeMounts.isEmpty "volumeMounts" (jsonArray (c.VolumeMounts.map marshalVolumeMount)) ++
    omitempty (c.ImagePullPolicy == "") "imagePullPolicy" (jsonString c.ImagePullPolicy) ++
    omitnil c.SecurityContext "securityContext" marshalSecurityContext)

/-- JSON of one patch operation: the keys of a Go map are written sorted, `op`, `path`, `value`. -/
def marshalOperation (o : PatchOperation) : String :=
  jsonObject (
    member "op" (jsonString o.op) ++
    member "path" (jsonString o.path) ++
    member "value" (marshalContainer o.value))

/-- The `json.Marshal` function at the type of the patch. None of the values inside can make
the encoder fail, so the error result is never produced. -/
def jsonMarshal (patch : List PatchOperation) : Except String String :=
  .ok (jsonArray (patch.map marshalOperation))

/-! ## Configuration -/

/-- The `getEnvOrDefault` function; the process environment is a lookup function. -/
def getEnvOrDefault (env : String → Option String) (key defaultValue : String) : String :=
  match env key with
  | some value => value
  | none => defaultValue

/-- The `config.Load` function; it never returns an error. -/
def Load (env : String → Option String) : Except String Config :=
  .ok {
    VirtioFSImage := getEnvOrDefault env "VIRTIOFS_IMAGE" "quay.io/kubevirt/virt-launcher:v1.5.1"
    ResourceRequests := {
      CPU := MustParse (getEnvOrDefault env "RESOURCE_REQUESTS_CPU" "100m")
      Memory := MustParse (getEnvOrDefault env "RESOURCE_REQUESTS_MEMORY" "128Mi") }
    ResourceLimits := {
      CPU := MustParse (getEnvOrDefault env "RESOURCE_LIMITS_CPU" "200m")
      Memory := MustParse (getEnvOrDefault env "RESOURCE_LIMITS_MEMORY" "256Mi") } }

/-! ## Admission types -/

/-- The `Kind` member of an admission request. -/
structure GroupVersionKind where
  Kind : String
deriving DecidableEq, Repr

/-- The `runtime.RawExtension` holding the serialized object. -/
structure RawExtension where
  Raw : String
deriving DecidableEq, Repr

/-- The `admissionv1.AdmissionRequest` fields read by the program. -/
structure AdmissionRequest where
  UID : String
  Kind : GroupVersionKind
  Object : RawExtension
deriving DecidableEq, Repr

/-- The `metav1.Status` fields set by the program. -/
structure Status where
  Message : String
deriving DecidableEq, Repr

/-- The `admissionv1.PatchType` values. -/
inductive PatchType where
  | JSONPatch
deriving DecidableEq, Repr

/-- The `admissionv1.AdmissionResponse` fields set by `mutate`; `none` is a nil slice or pointer. -/
structure AdmissionResponse where
  Allowed : Bool
  Patch : Option String := none
  PatchType : Option PatchType := none
  Result : Option Status := none
deriving DecidableEq, Repr

/-! ## The mutation decision engine -/

/-- The constant `irsaAnnotation`. -/
def irsaAnnotation : String := "eks.amazonaws.com/role-arn"

/-- The `Mutator` struct. The client is the one call made on it: `(namespace, name)` to a
service account or an error, or `none` when the call never returns. -/
structure Mutator where
  config : Config
  k8sClient : String → String → Option (Except String ServiceAccount)

/-- A call that `mutate` makes, recorded where it is made: the client's
`ServiceAccounts(ns).Get(name)`, reached through `getServiceAccount`, and the patch builder. -/
inductive Call where
  | Get (ns name : String)
  | createVirtioFSPatch
deriving DecidableEq, Repr

/-- What a run of `mutate` does: the calls made, in order, and the response returned
(`none` when the client call never returned). -/
structure Outcome where
  calls : List Call
  response : Option AdmissionResponse
deriving DecidableEq, Repr

/-- The cluster lookups among the calls of a run, as `(namespace, name)` pairs. -/
def Outcome.lookups (o : Outcome) : List (String × String) :=
  o.calls.filterMap (fun c =>
    match c with
    | Call.Get ns name => some (ns, name)
    | Call.createVirtioFSPatch => none)

/-- The local variable `virtiofsContainer` of `createVirtioFSPatch`. -/
def virtiofsContainer (m : Mutator) : Container := {
  Name := "virtiofs-aws-iam-token"
  Image := m.config.VirtioFSImage
  ImagePullPolicy := "IfNotPresent"
  Command := ["/usr/libexec/virtiofsd"]
  Args := [
    "--socket-path=/var/run/kubevirt/virtiofs-containers/aws-iam-token.sock",
    "--shared-dir=/var/run/secrets/eks.amazonaws.com/serviceaccount",
    "--sandbox=none",
    "--cache=auto",
    "--migration-on-error=guest-error",
    "--migration-mode=find-paths" ]
  Resources := {
    Requests := [("cpu", MustParse "10m"), ("memory", MustParse "1M")]
    Limits := [("cpu", MustParse "100m"), ("memory", MustParse "128Mi")] }
  VolumeMounts := [
    { Name := "virtiofs-containers"
      MountPath := "/var/run/kubevirt/virtiofs-containers" } ]
  SecurityContext := some {
    RunAsUser := some 107
    RunAsGroup := some 107
    RunAsNonRoot := some true
    AllowPrivilegeEscalation := some false
    Capabilities := some { Drop := ["ALL"] } } }

/-- The `createVirtioFSPatch` method: the one-operation patch, marshalled. -/
def createVirtioFSPatch (m : Mutator) (_pod : Pod) (_roleARN : String) : Except String String :=
  let patch : List PatchOperation := [
    { op := "add"
      path := "/spec/containers/-"
      value := virtiofsContainer m } ]
  jsonMarshal patch

/-- The `getServiceAccount` method: the client call it makes, and what that call returns. -/
def getServiceAccount (m : Mutator) (ns name : String) :
    Call × Option (Except String ServiceAccount) :=
  let name := if name = "" then "default" else name
  (Call.Get ns name, m.k8sClient ns name)

/-- The `mutate` method. `unmarshal` is `json.Unmarshal` into a `corev1.Pod`. -/
def mutate (unmarshal : String → Except String Pod) (m : Mutator) (request : AdmissionRequest) :
    Outcome :=
  if request.Kind.Kind ≠ "Pod" then
    ⟨[], some { Allowed := true }⟩
  else
    match unmarshal request.Object.Raw with
    | .error err =>
      ⟨[], some {
        Allowed := false
        Result := some { Message := "could not unmarshal pod object: " ++ err } }⟩
    | .ok pod =>
      if !isKubeVirtPod pod then
        ⟨[], some { Allowed := true }⟩
      else
        match getServiceAccount m pod.Namespace pod.Spec.ServiceAccountName with
        | (get, none) => ⟨[get], none⟩
        | (get, some (.error err)) =>
          ⟨[get], some {
            Allowed := false
            Result := some { Message := "failed to get service account: " ++ err } }⟩
        | (get, some (.ok sa)) =>
          match sa.Annotations.lookup irsaAnnotation with
          | none => ⟨[get], some { Allowed := true }⟩
          | some roleARN =>
            match createVirtioFSPatch m pod roleARN with
            | .error err =>
              ⟨[get, Call.createVirtioFSPatch], some {
                Allowed := false
                Result := some { Message := "failed to create patch: " ++ err } }⟩
            | .ok patch =>
              ⟨[get, Call.createVirtioFSPatch], some {
                Allowed := true
                Patch := some patch
                PatchType := some PatchType.JSONPatch }⟩

/-! ## Reading the claims -/

/-- A string starts with a prefix: it is the prefix followed by some rest. -/
def StartsWith (s pre : String) : Prop := ∃ rest : String, s = pre ++ rest

/-- The effective service-account name of a Pod: `default` when the field is empty. -/
def effectiveServiceAccountName (pod : Pod) : String :=
  if pod.Spec.ServiceAccountName = "" then "default" else pod.Spec.ServiceAccountName

/-! ## Sample inputs -/

/-- A Pod of a KubeVirt virtual machine that names its service account. -/
def podKV : Pod :=
  { Namespace := "ns1", Labels := [("kubevirt.io", "")], Spec := { ServiceAccountName := "kv-sa" } }

/-- A Pod with a prefixed KubeVirt label and no service-account name. -/
def podVM : Pod :=
  { Namespace := "ns1", Labels := [("vm.kubevirt.io/foo", "x")],
    Spec := { ServiceAccountName := "" } }

/-- A Pod with a KubeVirt label whose service account has no role annotation. -/
def podNoRole : Pod :=
  { Namespace := "ns1", Labels := [("app", "web"), ("kubevirt.io/domain", "vm1")],
    Spec := { ServiceAccountName := "plain-sa" } }

/-- A Pod without any KubeVirt label. -/
def podPlain : Pod :=
  { Namespace := "ns1", Labels := [("app", "web")], Spec := { ServiceAccountName := "kv-sa" } }

/-- A decoder that knows four documents by name and rejects every other input. -/
def sampleUnmarshal (raw : String) : Except String Pod :=
  if raw = "kv" then .ok podKV
  else if raw = "vm" then .ok podVM
  else if raw = "norole" then .ok podNoRole
  else if raw = "plain" then .ok podPlain
  else .error "unexpected end of JSON input"

/-- The service account `ns1/kv-sa`, annotated with a role. -/
def saWithRole : ServiceAccount :=
  { Annotations := [("eks.amazonaws.com/role-arn", "arn:aws:iam::123:role/x")] }

/-- The service account `ns1/plain-sa`, without annotations. -/
def saPlain : ServiceAccount := { Annotations := [] }

/-- A cluster with the two service accounts above and nothing else. -/
def sampleClient (ns name : String) : Option (Except String ServiceAccount) :=
  if ns = "ns1" ∧ name = "kv-sa" then some (.ok saWithRole)
  else if ns = "ns1" ∧ name = "plain-sa" then some (.ok saPlain)
  else some (.error "serviceaccounts not found")

/-- A mutator over the sample cluster with an image of its own. -/
def sampleMutator : Mutator :=
  { config :=
      { VirtioFSImage := "example.com/virt-launcher:test"
        ResourceRequests := { CPU := MustParse "100m", Memory := MustParse "128Mi" }
        ResourceLimits := { CPU := MustParse "200m", Memory := MustParse "256Mi" } }
    k8sClient := sampleClient }

/-- A Pod admission request carrying the named document. -/
def podRequest (raw : String) : AdmissionRequest :=
  { UID := "uid-1", Kind := { Kind := "Pod" }, Object := { Raw := raw } }

/-- A request for another kind, with an object no decoder accepts. -/
def deploymentRequest : AdmissionRequest :=
  { UID := "uid-2", Kind := { Kind := "Deployment" }, Object := { Raw := "\x00garbage" } }

/-! ## Lemmas -/

theorem HasPrefix_iff (s pre : String) : HasPrefix s pre = true ↔ StartsWith s pre := by
  unfold HasPrefix StartsWith
  rw [List.isPrefixOf_iff_prefix]
  constructor
  · rintro ⟨t, ht⟩
    exact ⟨⟨t⟩, String.ext (by simp [ht])⟩
  · rintro ⟨rest, rfl⟩
    exact ⟨rest.data, by simp⟩

theorem not_startsWith_of_hasPrefix (s pre : String) (h : HasPrefix s pre = false) :
    ¬ StartsWith s pre := by
  rw [← HasPrefix_iff, h]
  exact Bool.false_ne_true

theorem lookup_isSome_iff (k : String) (l : List (String × String)) :
    (l.lookup k).isSome = true ↔ k ∈ keys l := by
  induction l with
  | nil => simp [keys]
  | cons x xs ih =>
    obtain ⟨a, b⟩ := x
    by_cases h : k = a
    · subst h
      simp [keys, List.lookup]
    · have h2 : (k == a) = false := by simpa using h
      simp only [List.lookup, h2, ih]
      simp [keys, h]

theorem isKubeVirtPod_iff (pod : Pod) :
    isKubeVirtPod pod = true ↔
      ("kubevirt.io" ∈ keys pod.Labels ∨
        ∃ k ∈ keys pod.Labels, StartsWith k "kubevirt.io" ∨ StartsWith k "vm.kubevirt.io") := by
  unfold isKubeVirtPod
  by_cases h : (pod.Labels.lookup "kubevirt.io").isSome = true
  · simp only [h, if_true, true_iff]
    exact Or.inl ((lookup_isSome_iff _ _).1 h)
  · have hk : "kubevirt.io" ∉ keys pod.Labels := fun hk => h ((lookup_isSome_iff _ _).2 hk)
    have hscan : (pod.Labels.any
          (fun kv => HasPrefix kv.1 "kubevirt.io" || HasPrefix kv.1 "vm.kubevirt.io") = true) ↔
        ∃ k ∈ keys pod.Labels, StartsWith k "kubevirt.io" ∨ StartsWith k "vm.kubevirt.io" := by
      rw [List.any_eq_true]
      constructor
      · rintro ⟨kv, hkv, hp⟩
        refine ⟨kv.1, List.mem_map.2 ⟨kv, hkv, rfl⟩, ?_⟩
        simpa [HasPrefix_iff] using hp
      · rintro ⟨k, hmem, hp⟩
        obtain ⟨kv, hkv, rfl⟩ := List.mem_map.1 hmem
        refine ⟨kv, hkv, ?_⟩
        simpa [HasPrefix_iff] using hp
    simp only [h, hk, false_or]
    exact hscan

theorem not_isKubeVirtPod_of_labels (pod : Pod)
    (hlabels : ∀ k ∈ keys pod.Labels,
      k ≠ "kubevirt.io" ∧ ¬ StartsWith k "kubevirt.io" ∧ ¬ StartsWith k "vm.kubevirt.io") :
    isKubeVirtPod pod = false := by
  rw [← Bool.not_eq_true, isKubeVirtPod_iff]
  rintro (h | ⟨k, hk, h | h⟩)
  · exact (hlabels _ h).1 rfl
  · exact (hlabels k hk).2.1 h
  · exact (hlabels k hk).2.2 h

theorem lookup_eq_none_of_not_mem (k : String) (l : List (String × String))
    (h : k ∉ keys l) : l.lookup k = none := by
  cases hl : l.lookup k with
  | none => rfl
  | some v =>
    exact absurd ((lookup_isSome_iff k l).1 (by simp [hl])) h

theorem lookup_eq_some_of_mem (k : String) (l : List (String × String))
    (h : k ∈ keys l) : ∃ v, l.lookup k = some v := by
  have := (lookup_isSome_iff k l).2 h
  exact Option.isSome_iff_exists.1 this

theorem jsonArray_ne_empty (elems : List String) : jsonArray elems ≠ "" := by
  intro h
  have hd := congrArg String.data h
  simp [jsonArray] at hd

/-- The run of `mutate` on a Pod request whose object parses to an eligible Pod. -/
theorem mutate_eligible (unmarshal : String → Except String Pod) (m : Mutator)
    (request : AdmissionRequest) (pod : Pod)
    (hkind : request.Kind.Kind = "Pod")
    (hpod : unmarshal request.Object.Raw = .ok pod)
    (helig : isKubeVirtPod pod = true) :
    mutate unmarshal m request =
      match m.k8sClient pod.Namespace (effectiveServiceAccountName pod) with
      | none => ⟨[Call.Get pod.Namespace (effectiveServiceAccountName pod)], none⟩
      | some (.error err) =>
        ⟨[Call.Get pod.Namespace (effectiveServiceAccountName pod)], some {
          Allowed := false
          Result := some { Message := "failed to get service account: " ++ err } }⟩
      | some (.ok sa) =>
        match sa.Annotations.lookup irsaAnnotation with
        | none =>
          ⟨[Call.Get pod.Namespace (effectiveServiceAccountName pod)], some { Allowed := true }⟩
        | some roleARN =>
          match createVirtioFSPatch m pod roleARN with
          | .error err =>
            ⟨[Call.Get pod.Namespace (effectiveServiceAccountName pod),
                Call.createVirtioFSPatch], some {
              Allowed := false
              Result := some { Message := "failed to create patch: " ++ err } }⟩
          | .ok patch =>
            ⟨[Call.Get pod.Namespace (effectiveServiceAccountName pod),
                Call.createVirtioFSPatch], some {
              Allowed := true
              Patch := some patch
              PatchType := some PatchType.JSONPatch }⟩ := by
  unfold mutate
  simp only [hkind, ne_eq, not_true_eq_false, if_false, hpod, helig, Bool.not_true,
    getServiceAccount, effectiveServiceAccountName]
  rcases hc : m.k8sClient pod.Namespace
      (if pod.Spec.ServiceAccountName = "" then "default" else pod.Spec.ServiceAccountName)
    with _ | (err | sa) <;> simp

/-- The accumulator of `String.intercalate` only grows on the right. -/
theorem intercalate_go_append (x y s : String) (l : List String) :
    String.intercalate.go (x ++ y) s l = x ++ String.intercalate.go y s l := by
  induction l generalizing y with
  | nil => rfl
  | cons a as ih =>
    simp only [String.intercalate.go]
    rw [String.append_assoc, String.append_assoc, ih, ← String.append_assoc y]

/-- Joining at least two strings: the first, the separator, and the rest joined. -/
theorem intercalate_cons_cons (s a b : String) (l : List String) :
    s.intercalate (a :: b :: l) = a ++ (s ++ s.intercalate (b :: l)) := by
  simp only [String.intercalate, String.intercalate.go]
  rw [String.append_assoc, intercalate_go_append, intercalate_go_append]

/-- Joining one string gives that string. -/
theorem intercalate_singleton (s a : String) : s.intercalate [a] = a := rfl

/-- Regrouping of an object with one member that is not a literal. -/
theorem append_middle (o a k y t c c1 k1 c2 : String)
    (h1 : o ++ a = c1) (h2 : "," ++ k = k1) (h3 : "," ++ t ++ c = c2) :
    o ++ (a ++ ("," ++ (k ++ y ++ ("," ++ t)))) ++ c = c1 ++ (k1 ++ y) ++ c2 := by
  subst h1 h2 h3
  simp only [String.append_assoc]

set_option maxHeartbeats 4000000 in
set_option maxRecDepth 100000 in
/-- The bytes of the sidecar container: fixed text around the `image` member, which is left
out for an empty image. -/
theorem marshalContainer_virtiofsContainer (m : Mutator) :
    marshalContainer (virtiofsContainer m) =
      "\x7b\"name\":\"virtiofs-aws-iam-token\"" ++
      (if m.config.VirtioFSImage = "" then ""
        else ",\"image\":" ++ jsonString m.config.VirtioFSImage) ++
      (",\"command\":[\"/usr/libexec/virtiofsd\"],\"args\":[" ++
       "\"--socket-path=/var/run/kubevirt/virtiofs-containers/aws-iam-token.sock\"," ++
       "\"--shared-dir=/var/run/secrets/eks.amazonaws.com/serviceaccount\"," ++
       "\"--sandbox=none\",\"--cache=auto\",\"--migration-on-error=guest-error\"," ++
       "\"--migration-mode=find-paths\"]," ++
       "\"resources\":\x7b\"limits\":\x7b\"cpu\":\"100m\",\"memory\":\"128Mi\"\x7d," ++
       "\"requests\":\x7b\"cpu\":\"10m\",\"memory\":\"1M\"\x7d\x7d," ++
       "\"volumeMounts\":[\x7b\"name\":\"virtiofs-containers\"," ++
       "\"mountPath\":\"/var/run/kubevirt/virtiofs-containers\"\x7d]," ++
       "\"imagePullPolicy\":\"IfNotPresent\"," ++
       "\"securityContext\":\x7b\"capabilities\":\x7b\"drop\":[\"ALL\"]\x7d," ++
       "\"runAsUser\":107,\"runAsGroup\":107,\"runAsNonRoot\":true," ++
       "\"allowPrivilegeEscalation\":false\x7d\x7d") := by
  by_cases h : m.config.VirtioFSImage = ""
  · have hI : omitempty ((virtiofsContainer m).Image == "") "image"
        (jsonString (virtiofsContainer m).Image) = [] := by
      simp [omitempty, virtiofsContainer, h]
    unfold marshalContainer
    rw [hI, if_pos h]
    rfl
  · have hI : omitempty ((virtiofsContainer m).Image == "") "image"
        (jsonString (virtiofsContainer m).Image) =
          [jsonString "image" ++ ":" ++ jsonString m.config.VirtioFSImage] := by
      simp [omitempty, member, virtiofsContainer, h]
    unfold marshalContainer
    rw [hI, if_neg h]
    generalize jsonString m.config.VirtioFSImage = y
    change jsonObject (_ :: _ :: _ :: _) = _
    unfold jsonObject
    rw [intercalate_cons_cons, intercalate_cons_cons]
    refine append_middle _ _ _ _ _ _ _ _ _ ?_ ?_ ?_
    · rfl
    · rfl
    · have e1 : (virtiofsContainer m).Command = ["/usr/libexec/virtiofsd"] := rfl
      have e2 : (virtiofsContainer m).Args = [
        "--socket-path=/var/run/kubevirt/virtiofs-containers/aws-iam-token.sock",
        "--shared-dir=/var/run/secrets/eks.amazonaws.com/serviceaccount",
        "--sandbox=none", "--cache=auto", "--migration-on-error=guest-error",
        "--migration-mode=find-paths"] := rfl
      have e3 : (virtiofsContainer m).Resources =
          { Requests := [("cpu", MustParse "10m"), ("memory", MustParse "1M")]
            Limits := [("cpu", MustParse "100m"), ("memory", MustParse "128Mi")] } := rfl
      have e4 : (virtiofsContainer m).VolumeMounts =
          [{ Name := "virtiofs-containers",
             MountPath := "/var/run/kubevirt/virtiofs-containers" }] := rfl
      have e5 : (virtiofsContainer m).ImagePullPolicy = "IfNotPresent" := rfl
      have e6 : (virtiofsContainer m).SecurityContext = some {
          RunAsUser := some 107, RunAsGroup := some 107, RunAsNonRoot := some true,
          AllowPrivilegeEscalation := some false, Capabilities := some { Drop := ["ALL"] } } := rfl
      rw [e1, e2, e3, e4, e5, e6]
      rfl

/-- Regrouping of the patch around the part of the container that is not a literal. -/
theorem append_outer (x1 x2 o p kv c1 y c2 x3 x4 a b : String)
    (h1 : x1 ++ (x2 ++ (o ++ ("," ++ (p ++ ("," ++ (kv ++ ":" ++ c1)))))) = a)
    (h2 : c2 ++ x3 ++ x4 = b) :
    x1 ++ (x2 ++ (o ++ ("," ++ (p ++ ("," ++ (kv ++ ":" ++ (c1 ++ y ++ c2)))))) ++ x3) ++ x4 =
      a ++ y ++ b := by
  subst h1 h2
  simp only [String.append_assoc]

set_option maxHeartbeats 4000000 in
set_option maxRecDepth 100000 in
/-- The bytes that `createVirtioFSPatch` returns, for every configuration: one `add`
operation whose value is the sidecar container. -/
theorem createVirtioFSPatch_bytes (m : Mutator) (pod : Pod) (roleARN : String) :
    createVirtioFSPatch m pod roleARN = .ok
      ("[\x7b\"op\":\"add\",\"path\":\"/spec/containers/-\",\"value\":\x7b\"name\":\"virtiofs-aws-iam-token\"" ++
       (if m.config.VirtioFSImage = "" then ""
         else ",\"image\":" ++ jsonString m.config.VirtioFSImage) ++
       (",\"command\":[\"/usr/libexec/virtiofsd\"],\"args\":[" ++
        "\"--socket-path=/var/run/kubevirt/virtiofs-containers/aws-iam-token.sock\"," ++
        "\"--shared-dir=/var/run/secrets/eks.amazonaws.com/serviceaccount\"," ++
        "\"--sandbox=none\",\"--cache=auto\",\"--migration-on-error=guest-error\"," ++
        "\"--migration-mode=find-paths\"]," ++
        "\"resources\":\x7b\"limits\":\x7b\"cpu\":\"100m\",\"memory\":\"128Mi\"\x7d," ++
        "\"requests\":\x7b\"cpu\":\"10m\",\"memory\":\"1M\"\x7d\x7d," ++
        "\"volumeMounts\":[\x7b\"name\":\"virtiofs-containers\"," ++
        "\"mountPath\":\"/var/run/kubevirt/virtiofs-containers\"\x7d]," ++
        "\"imagePullPolicy\":\"IfNotPresent\"," ++
        "\"securityContext\":\x7b\"capabilities\":\x7b\"drop\":[\"ALL\"]\x7d," ++
        "\"runAsUser\":107,\"runAsGroup\":107,\"runAsNonRoot\":true," ++
        "\"allowPrivilegeEscalation\":false\x7d\x7d\x7d]")) := by
  show Except.ok (jsonArray [jsonObject (
    member "op" (jsonString "add") ++ member "path" (jsonString "/spec/containers/-") ++
      member "value" (marshalContainer (virtiofsContainer m)))]) = _
  rw [marshalContainer_virtiofsContainer]
  congr 1
  unfold jsonArray jsonObject
  change "[" ++ ",".intercalate ["\x7b" ++ ",".intercalate (_ :: _ :: [_ ++ ":" ++ _]) ++ "\x7d"]
    ++ "]" = _
  rw [intercalate_singleton, intercalate_cons_cons, intercalate_cons_cons,
    intercalate_singleton]
  refine append_outer _ _ _ _ _ _ _ _ _ _ _ _ ?_ ?_
  · rfl
  · rfl

/-- A character that `encoding/json` writes as it is stands for itself in the escaped text. -/
theorem escapeChars_plain (l : List Char)
    (h : ∀ ch ∈ l,
      32 ≤ ch.toNat ∧ ch.toNat ≠ 34 ∧ ch.toNat ≠ 38 ∧ ch.toNat ≠ 60 ∧ ch.toNat ≠ 62 ∧
        ch.toNat ≠ 92 ∧ ch.toNat ≠ 8232 ∧ ch.toNat ≠ 8233) :
    escapeChars l = l := by
  induction l with
  | nil => rfl
  | cons c cs ih =>
    have hc := h c (List.mem_cons_self _ _)
    have hcs := ih (fun ch hch => h ch (List.mem_cons_of_mem _ hch))
    have he : escapeChar c = [c] := by
      unfold escapeChar
      simp only []
      split_ifs <;> first | rfl | omega
    simp [escapeChars, he, hcs]

/-- A string of characters that need no escape is written between two quotes. -/
theorem jsonString_plain (s : String)
    (h : ∀ ch ∈ s.data,
      32 ≤ ch.toNat ∧ ch.toNat ≠ 34 ∧ ch.toNat ≠ 38 ∧ ch.toNat ≠ 60 ∧ ch.toNat ≠ 62 ∧
        ch.toNat ≠ 92 ∧ ch.toNat ≠ 8232 ∧ ch.toNat ≠ 8233) :
    jsonString s = "\"" ++ s ++ "\"" := by
  unfold jsonString
  rw [escapeChars_plain _ h]
  apply String.ext
  simp only [String.data_append]
  rfl

/-- The run of `mutate` on an eligible Pod depends on the client only through its answer at
the Pod's namespace and effective service-account name. -/
theorem mutate_client_agree (unmarshal : String → Except String Pod) (m : Mutator)
    (client : String → String → Option (Except String ServiceAccount))
    (request : AdmissionRequest) (pod : Pod)
    (hkind : request.Kind.Kind = "Pod")
    (hpod : unmarshal request.Object.Raw = .ok pod)
    (helig : isKubeVirtPod pod = true)
    (hagree : client pod.Namespace (effectiveServiceAccountName pod) =
      m.k8sClient pod.Namespace (effectiveServiceAccountName pod)) :
    mutate unmarshal ⟨m.config, client⟩ request = mutate unmarshal m request := by
  rw [mutate_eligible unmarshal m request pod hkind hpod helig,
    mutate_eligible unmarshal ⟨m.config, client⟩ request pod hkind hpod helig]
  simp only [hagree]
  rfl

/-- An eligible run returns no response exactly when the client call never returns. -/
theorem mutate_response_none_iff (unmarshal : String → Except String Pod) (m : Mutator)
    (request : AdmissionRequest) (pod : Pod)
    (hkind : request.Kind.Kind = "Pod")
    (hpod : unmarshal request.Object.Raw = .ok pod)
    (helig : isKubeVirtPod pod = true) :
    (mutate unmarshal m request).response = none ↔
      m.k8sClient pod.Namespace (effectiveServiceAccountName pod) = none := by
  rw [mutate_eligible unmarshal m request pod hkind hpod helig]
  rcases m.k8sClient pod.Namespace (effectiveServiceAccountName pod) with _ | (err | sa)
  · simp
  · simp
  · rcases hl : sa.Annotations.lookup irsaAnnotation with _ | roleARN
    · simp [hl]
    · simp [hl, createVirtioFSPatch, jsonMarshal]

/-! ## Claims -/

/-- C1: `isKubeVirtPod` returns true exactly when the label mapping has the key `kubevirt.io`
or a key starting with `kubevirt.io` or `vm.kubevirt.io`; two Pods whose label mappings have
the same set of keys get the same answer, whatever the values and the iteration order. -/
theorem isKubeVirtPod_keys_only (pod : Pod) :
    (isKubeVirtPod pod = true ↔
      ("kubevirt.io" ∈ keys pod.Labels ∨
        ∃ k ∈ keys pod.Labels, StartsWith k "kubevirt.io" ∨ StartsWith k "vm.kubevirt.io")) ∧
    (∀ other : Pod, (∀ k, k ∈ keys other.Labels ↔ k ∈ keys pod.Labels) →
      isKubeVirtPod other = isKubeVirtPod pod) ∧
    (∀ other : Pod, other.Labels.Perm pod.Labels → isKubeVirtPod other = isKubeVirtPod pod) := by
  have hset : ∀ other : Pod, (∀ k, k ∈ keys other.Labels ↔ k ∈ keys pod.Labels) →
      isKubeVirtPod other = isKubeVirtPod pod := by
    intro other hk
    rw [Bool.eq_iff_iff, isKubeVirtPod_iff, isKubeVirtPod_iff]
    simp only [hk]
  refine ⟨isKubeVirtPod_iff pod, hset, ?_⟩
  intro other hperm
  apply hset
  intro k
  unfold keys
  exact (hperm.map Prod.fst).mem_iff

/-- C2: for a Pod request whose object parses to an eligible Pod and whose service-account
lookup returns a ServiceAccount carrying the `eks.amazonaws.com/role-arn` annotation (any
value), `mutate` allows with patch type JSONPatch and a non-empty patch; the patch is the
encoding of exactly one operation, an `add` at the append path of `/spec/containers`, whose value is the
`virtiofs-aws-iam-token` container with the fixed command, six arguments, one volume mount
and security profile. The bytes of the patch are given for every configuration: fixed text
around the `image` member, which is the configured image between quotes when the image has
no character that JSON escapes, and is left out when the image is empty. -/
theorem mutate_injects_sidecar (unmarshal : String → Except String Pod) (m : Mutator)
    (request : AdmissionRequest) (pod : Pod) (sa : ServiceAccount)
    (hkind : request.Kind.Kind = "Pod")
    (hpod : unmarshal request.Object.Raw = .ok pod)
    (helig : isKubeVirtPod pod = true)
    (hsa : m.k8sClient pod.Namespace (effectiveServiceAccountName pod) = some (.ok sa))
    (hrole : irsaAnnotation ∈ keys sa.Annotations) :
    ∃ (patch : String) (c : Container),
      (mutate unmarshal m request).response =
        some { Allowed := true, Patch := some patch,
               PatchType := some PatchType.JSONPatch, Result := none } ∧
      patch ≠ "" ∧
      patch =
        "[\x7b\"op\":\"add\",\"path\":\"/spec/containers/-\",\"value\":\x7b\"name\":\"virtiofs-aws-iam-token\"" ++
        (if m.config.VirtioFSImage = "" then ""
          else ",\"image\":" ++ jsonString m.config.VirtioFSImage) ++
        (",\"command\":[\"/usr/libexec/virtiofsd\"],\"args\":[" ++
         "\"--socket-path=/var/run/kubevirt/virtiofs-containers/aws-iam-token.sock\"," ++
         "\"--shared-dir=/var/run/secrets/eks.amazonaws.com/serviceaccount\"," ++
         "\"--sandbox=none\",\"--cache=auto\",\"--migration-on-error=guest-error\"," ++
         "\"--migration-mode=find-paths\"]," ++
         "\"resources\":\x7b\"limits\":\x7b\"cpu\":\"100m\",\"memory\":\"128Mi\"\x7d," ++
         "\"requests\":\x7b\"cpu\":\"10m\",\"memory\":\"1M\"\x7d\x7d," ++
         "\"volumeMounts\":[\x7b\"name\":\"virtiofs-containers\"," ++
         "\"mountPath\":\"/var/run/kubevirt/virtiofs-containers\"\x7d]," ++
         "\"imagePullPolicy\":\"IfNotPresent\"," ++
         "\"securityContext\":\x7b\"capabilities\":\x7b\"drop\":[\"ALL\"]\x7d," ++
         "\"runAsUser\":107,\"runAsGroup\":107,\"runAsNonRoot\":true," ++
         "\"allowPrivilegeEscalation\":false\x7d\x7d\x7d]") ∧
      ((∀ ch ∈ m.config.VirtioFSImage.data,
          32 ≤ ch.toNat ∧ ch.toNat ≠ 34 ∧ ch.toNat ≠ 38 ∧ ch.toNat ≠ 60 ∧ ch.toNat ≠ 62 ∧
            ch.toNat ≠ 92 ∧ ch.toNat ≠ 8232 ∧ ch.toNat ≠ 8233) →
        jsonString m.config.VirtioFSImage = "\"" ++ m.config.VirtioFSImage ++ "\"") ∧
      jsonMarshal [{ op := "add", path := "/spec/containers/-", value := c }] = .ok patch ∧
      c = virtiofsContainer m ∧
      c.Name = "virtiofs-aws-iam-token" ∧
      c.Command = ["/usr/libexec/virtiofsd"] ∧
      c.Args = [
        "--socket-path=/var/run/kubevirt/virtiofs-containers/aws-iam-token.sock",
        "--shared-dir=/var/run/secrets/eks.amazonaws.com/serviceaccount",
        "--sandbox=none",
        "--cache=auto",
        "--migration-on-error=guest-error",
        "--migration-mode=find-paths"] ∧
      c.VolumeMounts = [{ Name := "virtiofs-containers",
                          MountPath := "/var/run/kubevirt/virtiofs-containers" }] ∧
      c.SecurityContext = some {
        RunAsUser := some 107, RunAsGroup := some 107, RunAsNonRoot := some true,
        AllowPrivilegeEscalation := some false, Capabilities := some { Drop := ["ALL"] } } := by
  obtain ⟨roleARN, hlook⟩ := lookup_eq_some_of_mem _ _ hrole
  have hbytes := createVirtioFSPatch_bytes m pod roleARN
  have hne := jsonArray_ne_empty [marshalOperation
      { op := "add", path := "/spec/containers/-", value := virtiofsContainer m }]
  rw [show jsonArray [marshalOperation
      { op := "add", path := "/spec/containers/-", value := virtiofsContainer m }] = _ from
    Except.ok.inj hbytes] at hne
  refine ⟨_, virtiofsContainer m, ?_, hne, rfl, fun h => jsonString_plain _ h, hbytes,
    rfl, rfl, rfl, rfl, rfl, rfl⟩
  rw [mutate_eligible unmarshal m request pod hkind hpod helig]
  simp only [hsa, hlook, hbytes]

/-- C3 (as the code behaves): with the configuration loaded from an empty environment the
sidecar takes its image from the configuration, but its resource requests and limits are the
constants 10m / 1M and 100m / 128Mi, not the configured 100m / 128Mi and 200m / 256Mi. -/
theorem virtiofsContainer_resources_not_from_config :
    ∃ cfg : Config, Load (fun _ => none) = .ok cfg ∧
      ∀ client : String → String → Option (Except String ServiceAccount),
        (virtiofsContainer ⟨cfg, client⟩).Image = cfg.VirtioFSImage ∧
        (virtiofsContainer ⟨cfg, client⟩).Resources.Requests =
          [("cpu", MustParse "10m"), ("memory", MustParse "1M")] ∧
        (virtiofsContainer ⟨cfg, client⟩).Resources.Limits =
          [("cpu", MustParse "100m"), ("memory", MustParse "128Mi")] ∧
        (virtiofsContainer ⟨cfg, client⟩).Resources.Requests ≠
          [("cpu", cfg.ResourceRequests.CPU), ("memory", cfg.ResourceRequests.Memory)] ∧
        (virtiofsContainer ⟨cfg, client⟩).Resources.Limits ≠
          [("cpu", cfg.ResourceLimits.CPU), ("memory", cfg.ResourceLimits.Memory)] := by
  refine ⟨_, rfl, fun client => ⟨rfl, rfl, rfl, ?_, ?_⟩⟩ <;>
    simp [virtiofsContainer, MustParse, getEnvOrDefault]

/-- C4: for a Pod request whose object parses to a Pod with no label key equal to or prefixed
by `kubevirt.io` or `vm.kubevirt.io`, `mutate` makes no call at all and returns Allowed = true
with no patch, no patch type and no result message, whatever the client would do. -/
theorem mutate_ineligible_allows (unmarshal : String → Except String Pod) (cfg : Config)
    (client : String → String → Option (Except String ServiceAccount))
    (request : AdmissionRequest) (pod : Pod)
    (hkind : request.Kind.Kind = "Pod")
    (hpod : unmarshal request.Object.Raw = .ok pod)
    (hlabels : ∀ k ∈ keys pod.Labels,
      k ≠ "kubevirt.io" ∧ ¬ StartsWith k "kubevirt.io" ∧ ¬ StartsWith k "vm.kubevirt.io") :
    mutate unmarshal ⟨cfg, client⟩ request =
      { calls := [],
        response := some { Allowed := true, Patch := none, PatchType := none, Result := none } } := by
  have h := not_isKubeVirtPod_of_labels pod hlabels
  unfold mutate
  simp [hkind, hpod, h]

/-- C5: for a Pod request whose object parses to an eligible Pod, when the service-account
lookup returns an error, `mutate` returns Allowed = false with no patch and the message
`failed to get service account: ` followed by the error text, after exactly one lookup. -/
theorem mutate_lookup_error_denies (unmarshal : String → Except String Pod) (m : Mutator)
    (request : AdmissionRequest) (pod : Pod) (err : String)
    (hkind : request.Kind.Kind = "Pod")
    (hpod : unmarshal request.Object.Raw = .ok pod)
    (helig : isKubeVirtPod pod = true)
    (herr : m.k8sClient pod.Namespace (effectiveServiceAccountName pod) = some (.error err)) :
    (mutate unmarshal m request).response =
        some { Allowed := false, Patch := none, PatchType := none,
               Result := some { Message := "failed to get service account: " ++ err } } ∧
      (mutate unmarshal m request).calls =
        [Call.Get pod.Namespace (effectiveServiceAccountName pod)] ∧
      (mutate unmarshal m request).lookups.length = 1 := by
  rw [mutate_eligible unmarshal m request pod hkind hpod helig]
  simp [herr, Outcome.lookups]

/-- C6: for a Pod request whose object parses to an eligible Pod, when the resolved
ServiceAccount has no `eks.amazonaws.com/role-arn` annotation, `mutate` returns Allowed = true
with no patch and no patch type, and the patch builder is not called. -/
theorem mutate_without_role_allows (unmarshal : String → Except String Pod) (m : Mutator)
    (request : AdmissionRequest) (pod : Pod) (sa : ServiceAccount)
    (hkind : request.Kind.Kind = "Pod")
    (hpod : unmarshal request.Object.Raw = .ok pod)
    (helig : isKubeVirtPod pod = true)
    (hsa : m.k8sClient pod.Namespace (effectiveServiceAccountName pod) = some (.ok sa))
    (hrole : irsaAnnotation ∉ keys sa.Annotations) :
    (mutate unmarshal m request).response =
        some { Allowed := true, Patch := none, PatchType := none, Result := none } ∧
      Call.createVirtioFSPatch ∉ (mutate unmarshal m request).calls := by
  rw [mutate_eligible unmarshal m request pod hkind hpod helig]
  simp [hsa, lookup_eq_none_of_not_mem _ _ hrole]

/-- C7: for a request whose kind is not `Pod`, `mutate` makes no call and returns
Allowed = true with no patch, no patch type and no result message, whatever the raw object
is, whatever the decoder would say about it and whatever the client would do. -/
theorem mutate_other_kind_allows (unmarshal : String → Except String Pod) (m : Mutator)
    (request : AdmissionRequest) (hkind : request.Kind.Kind ≠ "Pod") :
    mutate unmarshal m request =
      { calls := [],
        response := some { Allowed := true, Patch := none, PatchType := none, Result := none } } := by
  unfold mutate
  simp [hkind]

/-- C8: every response that `mutate` returns satisfies: a patch is present only with
Allowed = true, patch type JSONPatch and a call of the patch builder; a result message is
present only with Allowed = false; no response has both a patch and a result message. -/
theorem mutate_response_invariant (unmarshal : String → Except String Pod) (m : Mutator)
    (request : AdmissionRequest) (resp : AdmissionResponse)
    (hresp : (mutate unmarshal m request).response = some resp) :
    (resp.Patch.isSome = true →
      resp.Allowed = true ∧ resp.PatchType = some PatchType.JSONPatch ∧
        Call.createVirtioFSPatch ∈ (mutate unmarshal m request).calls) ∧
    (resp.Result.isSome = true → resp.Allowed = false) ∧
    ¬ (resp.Patch.isSome = true ∧ resp.Result.isSome = true) := by
  revert hresp
  unfold mutate
  split
  · rintro ⟨rfl⟩; simp
  · split
    · rintro ⟨rfl⟩; simp
    · split
      · rintro ⟨rfl⟩; simp
      · split
        · intro h; simp at h
        · rintro ⟨rfl⟩; simp
        · split
          · rintro ⟨rfl⟩; simp
          · split
            · rintro ⟨rfl⟩; simp
            · rintro ⟨rfl⟩; simp

/-- C9: for an eligible Pod the only cluster lookup is made with the Pod's namespace and with
the name `default` when the Pod's serviceAccountName is empty, and with the serviceAccountName
itself when it is not empty, whatever the client then does. The client is applied to exactly
these arguments: `getServiceAccount` returns the client's answer there, the run returns no
response exactly when the client never returns there, and a client that answers the same
there gives the same run. -/
theorem mutate_lookup_arguments (unmarshal : String → Except String Pod) (m : Mutator)
    (request : AdmissionRequest) (pod : Pod)
    (hkind : request.Kind.Kind = "Pod")
    (hpod : unmarshal request.Object.Raw = .ok pod)
    (helig : isKubeVirtPod pod = true) :
    (pod.Spec.ServiceAccountName = "" →
      (mutate unmarshal m request).lookups = [(pod.Namespace, "default")]) ∧
    (pod.Spec.ServiceAccountName ≠ "" →
      (mutate unmarshal m request).lookups = [(pod.Namespace, pod.Spec.ServiceAccountName)]) ∧
    (getServiceAccount m pod.Namespace pod.Spec.ServiceAccountName).1 =
      Call.Get pod.Namespace (effectiveServiceAccountName pod) ∧
    (getServiceAccount m pod.Namespace pod.Spec.ServiceAccountName).2 =
      m.k8sClient pod.Namespace
        (if pod.Spec.ServiceAccountName = "" then "default" else pod.Spec.ServiceAccountName) ∧
    (getServiceAccount m pod.Namespace "").2 = m.k8sClient pod.Namespace "default" ∧
    ((mutate unmarshal m request).response = none ↔
      m.k8sClient pod.Namespace
        (if pod.Spec.ServiceAccountName = "" then "default" else pod.Spec.ServiceAccountName) =
          none) ∧
    (∀ client : String → String → Option (Except String ServiceAccount),
      client pod.Namespace
          (if pod.Spec.ServiceAccountName = "" then "default" else pod.Spec.ServiceAccountName) =
        m.k8sClient pod.Namespace
          (if pod.Spec.ServiceAccountName = "" then "default" else pod.Spec.ServiceAccountName) →
      mutate unmarshal ⟨m.config, client⟩ request = mutate unmarshal m request) := by
  have hl : (mutate unmarshal m request).lookups =
      [(pod.Namespace, effectiveServiceAccountName pod)] := by
    rw [mutate_eligible unmarshal m request pod hkind hpod helig]
    rcases m.k8sClient pod.Namespace (effectiveServiceAccountName pod) with _ | (err | sa)
    · simp [Outcome.lookups]
    · simp [Outcome.lookups]
    · rcases hl : sa.Annotations.lookup irsaAnnotation with _ | roleARN
      · simp [Outcome.lookups, hl]
      · simp [Outcome.lookups, hl, createVirtioFSPatch, jsonMarshal]
  refine ⟨fun h => ?_, fun h => ?_, rfl, rfl, rfl,
    mutate_response_none_iff unmarshal m request pod hkind hpod helig,
    fun client hagree => mutate_client_agree unmarshal m client request pod hkind hpod helig hagree⟩
  · rw [hl]; simp [effectiveServiceAccountName, h]
  · rw [hl]; simp [effectiveServiceAccountName, h]

/-- C10: `createVirtioFSPatch` is a function of the configuration only: with one
configuration, any two clients, any two Pods and any two role values, both calls succeed and
return the same bytes. -/
theorem createVirtioFSPatch_config_only (cfg : Config)
    (client₁ client₂ : String → String → Option (Except String ServiceAccount))
    (pod₁ pod₂ : Pod) (roleARN₁ roleARN₂ : String) :
    ∃ bytes : String,
      createVirtioFSPatch ⟨cfg, client₁⟩ pod₁ roleARN₁ = .ok bytes ∧
      createVirtioFSPatch ⟨cfg, client₂⟩ pod₂ roleARN₂ = .ok bytes :=
  ⟨_, rfl, rfl⟩

/-- The first scenario: `podKV` with the annotated service account `ns1/kv-sa` is patched. -/
theorem mutate_injects_sidecar_witness :
    ∃ (patch : String) (c : Container),
      (mutate sampleUnmarshal sampleMutator (podRequest "kv")).response =
        some { Allowed := true, Patch := some patch,
               PatchType := some PatchType.JSONPatch, Result := none } ∧
      patch ≠ "" ∧
      patch =
        "[\x7b\"op\":\"add\",\"path\":\"/spec/containers/-\",\"value\":\x7b\"name\":\"virtiofs-aws-iam-token\"" ++
        (if sampleMutator.config.VirtioFSImage = "" then ""
          else ",\"image\":" ++ jsonString sampleMutator.config.VirtioFSImage) ++
        (",\"command\":[\"/usr/libexec/virtiofsd\"],\"args\":[" ++
         "\"--socket-path=/var/run/kubevirt/virtiofs-containers/aws-iam-token.sock\"," ++
         "\"--shared-dir=/var/run/secrets/eks.amazonaws.com/serviceaccount\"," ++
         "\"--sandbox=none\",\"--cache=auto\",\"--migration-on-error=guest-error\"," ++
         "\"--migration-mode=find-paths\"]," ++
         "\"resources\":\x7b\"limits\":\x7b\"cpu\":\"100m\",\"memory\":\"128Mi\"\x7d," ++
         "\"requests\":\x7b\"cpu\":\"10m\",\"memory\":\"1M\"\x7d\x7d," ++
         "\"volumeMounts\":[\x7b\"name\":\"virtiofs-containers\"," ++
         "\"mountPath\":\"/var/run/kubevirt/virtiofs-containers\"\x7d]," ++
         "\"imagePullPolicy\":\"IfNotPresent\"," ++
         "\"securityContext\":\x7b\"capabilities\":\x7b\"drop\":[\"ALL\"]\x7d," ++
         "\"runAsUser\":107,\"runAsGroup\":107,\"runAsNonRoot\":true," ++
         "\"allowPrivilegeEscalation\":false\x7d\x7d\x7d]") ∧
      ((∀ ch ∈ sampleMutator.config.VirtioFSImage.data,
          32 ≤ ch.toNat ∧ ch.toNat ≠ 34 ∧ ch.toNat ≠ 38 ∧ ch.toNat ≠ 60 ∧ ch.toNat ≠ 62 ∧
            ch.toNat ≠ 92 ∧ ch.toNat ≠ 8232 ∧ ch.toNat ≠ 8233) →
        jsonString sampleMutator.config.VirtioFSImage = "\"" ++ sampleMutator.config.VirtioFSImage ++ "\"") ∧
      jsonMarshal [{ op := "add", path := "/spec/containers/-", value := c }] = .ok patch ∧
      c = virtiofsContainer sampleMutator ∧
      c.Name = "virtiofs-aws-iam-token" ∧
      c.Command = ["/usr/libexec/virtiofsd"] ∧
      c.Args = [
        "--socket-path=/var/run/kubevirt/virtiofs-containers/aws-iam-token.sock",
        "--shared-dir=/var/run/secrets/eks.amazonaws.com/serviceaccount",
        "--sandbox=none",
        "--cache=auto",
        "--migration-on-error=guest-error",
        "--migration-mode=find-paths"] ∧
      c.VolumeMounts = [{ Name := "virtiofs-containers",
                          MountPath := "/var/run/kubevirt/virtiofs-containers" }] ∧
      c.SecurityContext = some {
        RunAsUser := some 107, RunAsGroup := some 107, RunAsNonRoot := some true,
        AllowPrivilegeEscalation := some false, Capabilities := some { Drop := ["ALL"] } } :=
  mutate_injects_sidecar sampleUnmarshal sampleMutator (podRequest "kv") podKV saWithRole
    (by decide) (by rfl) (by decide) (by rfl) (by decide)

/-- A Pod labelled only `app` is allowed untouched even by a client that never returns. -/
theorem mutate_ineligible_allows_witness :
    mutate sampleUnmarshal ⟨sampleMutator.config, fun _ _ => none⟩ (podRequest "plain") =
      { calls := [],
        response := some { Allowed := true, Patch := none, PatchType := none, Result := none } } :=
  mutate_ineligible_allows sampleUnmarshal sampleMutator.config (fun _ _ => none)
    (podRequest "plain") podPlain (by decide) (by rfl)
    (by
      intro k hk
      have hk2 : k = "app" := by simpa [keys, podPlain] using hk
      subst hk2
      exact ⟨by decide, not_startsWith_of_hasPrefix _ _ (by decide),
        not_startsWith_of_hasPrefix _ _ (by decide)⟩)

/-- The third scenario: `podVM` with no `ns1/default` service account is denied. -/
theorem mutate_lookup_error_denies_witness :
    (mutate sampleUnmarshal sampleMutator (podRequest "vm")).response =
        some { Allowed := false, Patch := none, PatchType := none,
               Result := some { Message :=
                 "failed to get service account: " ++ "serviceaccounts not found" } } ∧
      (mutate sampleUnmarshal sampleMutator (podRequest "vm")).calls =
        [Call.Get podVM.Namespace (effectiveServiceAccountName podVM)] ∧
      (mutate sampleUnmarshal sampleMutator (podRequest "vm")).lookups.length = 1 :=
  mutate_lookup_error_denies sampleUnmarshal sampleMutator (podRequest "vm") podVM
    "serviceaccounts not found" (by decide) (by rfl) (by decide) (by rfl)

/-- The second scenario: a service account without the annotation leaves the Pod untouched. -/
theorem mutate_without_role_allows_witness :
    (mutate sampleUnmarshal sampleMutator (podRequest "norole")).response =
        some { Allowed := true, Patch := none, PatchType := none, Result := none } ∧
      Call.createVirtioFSPatch ∉ (mutate sampleUnmarshal sampleMutator (podRequest "norole")).calls :=
  mutate_without_role_allows sampleUnmarshal sampleMutator (podRequest "norole") podNoRole saPlain
    (by decide) (by rfl) (by decide) (by rfl) (by decide)

/-- A Deployment request with an undecodable object is allowed untouched. -/
theorem mutate_other_kind_allows_witness :
    mutate sampleUnmarshal sampleMutator deploymentRequest =
      { calls := [],
        response := some { Allowed := true, Patch := none, PatchType := none, Result := none } } :=
  mutate_other_kind_allows sampleUnmarshal sampleMutator deploymentRequest (by decide)

/-- The invariant at the patched response of the first scenario. -/
theorem mutate_response_invariant_witness :
    ∃ resp : AdmissionResponse,
      (mutate sampleUnmarshal sampleMutator (podRequest "kv")).response = some resp ∧
      resp.Patch.isSome = true ∧
      ((resp.Patch.isSome = true →
        resp.Allowed = true ∧ resp.PatchType = some PatchType.JSONPatch ∧
          Call.createVirtioFSPatch ∈
            (mutate sampleUnmarshal sampleMutator (podRequest "kv")).calls) ∧
      (resp.Result.isSome = true → resp.Allowed = false) ∧
      ¬ (resp.Patch.isSome = true ∧ resp.Result.isSome = true)) :=
  ⟨_, rfl, rfl,
    mutate_response_invariant sampleUnmarshal sampleMutator (podRequest "kv") _ rfl⟩

/-- An empty service-account name is looked up as `default`, a given one as it is: the
answer for `podVM` is the client's answer at `ns1/default`, and a client that only knows
that it has no `ns1/default` gives the same run. -/
theorem mutate_lookup_arguments_witness :
    (mutate sampleUnmarshal sampleMutator (podRequest "vm")).lookups = [("ns1", "default")] ∧
    (mutate sampleUnmarshal sampleMutator (podRequest "kv")).lookups = [("ns1", "kv-sa")] ∧
    (getServiceAccount sampleMutator "ns1" "").2 = sampleClient "ns1" "default" ∧
    mutate sampleUnmarshal
        ⟨sampleMutator.config, fun ns name =>
          if ns = "ns1" ∧ name = "default" then some (.error "serviceaccounts not found")
          else none⟩
        (podRequest "vm") =
      mutate sampleUnmarshal sampleMutator (podRequest "vm") :=
  ⟨(mutate_lookup_arguments sampleUnmarshal sampleMutator (podRequest "vm") podVM
      (by decide) (by rfl) (by decide)).1 rfl,
   (mutate_lookup_arguments sampleUnmarshal sampleMutator (podRequest "kv") podKV
      (by decide) (by rfl) (by decide)).2.1 (by decide),
   (mutate_lookup_arguments sampleUnmarshal sampleMutator (podRequest "vm") podVM
      (by decide) (by rfl) (by decide)).2.2.2.2.1,
   (mutate_lookup_arguments sampleUnmarshal sampleMutator (podRequest "vm") podVM
      (by decide) (by rfl) (by decide)).2.2.2.2.2.2 _ (by rfl)⟩

set_option maxRecDepth 100000 in
/-- The bytes of the patch for the sample configuration, as `encoding/json` writes them. -/
theorem createVirtioFSPatch_sample_bytes :
    createVirtioFSPatch sampleMutator podKV "arn:aws:iam::123:role/x" = .ok
      ("[\x7b\"op\":\"add\",\"path\":\"/spec/containers/-\",\"value\":\x7b" ++
       "\"name\":\"virtiofs-aws-iam-token\",\"image\":\"example.com/virt-launcher:test\"," ++
       "\"command\":[\"/usr/libexec/virtiofsd\"],\"args\":[" ++
       "\"--socket-path=/var/run/kubevirt/virtiofs-containers/aws-iam-token.sock\"," ++
       "\"--shared-dir=/var/run/secrets/eks.amazonaws.com/serviceaccount\"," ++
       "\"--sandbox=none\",\"--cache=auto\",\"--migration-on-error=guest-error\"," ++
       "\"--migration-mode=find-paths\"]," ++
       "\"resources\":\x7b\"limits\":\x7b\"cpu\":\"100m\",\"memory\":\"128Mi\"\x7d," ++
       "\"requests\":\x7b\"cpu\":\"10m\",\"memory\":\"1M\"\x7d\x7d," ++
       "\"volumeMounts\":[\x7b\"name\":\"virtiofs-containers\"," ++
       "\"mountPath\":\"/var/run/kubevirt/virtiofs-containers\"\x7d]," ++
       "\"imagePullPolicy\":\"IfNotPresent\"," ++
       "\"securityContext\":\x7b\"capabilities\":\x7b\"drop\":[\"ALL\"]\x7d," ++
       "\"runAsUser\":107,\"runAsGroup\":107,\"runAsNonRoot\":true," ++
       "\"allowPrivilegeEscalation\":false\x7d\x7d\x7d]") := by
  rfl

end Webhook
